import Mathlib

/-!
Verification of the Job Execution Engine of the Artience repository
(`apps/api/app/routers/jobs.py`), shallowly embedded in Lean 4.

Modelling conventions:
* The persisted `logs`/`artifacts` JSON strings are modelled as the lists
  they encode (JSON round-trips lists faithfully); `_serialize_logs` is
  the trim on the decoded list.
* Timestamps are natural numbers (seconds); database `NULL` is `Option`.
* The in-memory `_active_jobs` map is modelled by its values (a list of
  runtime states) where only counting matters, and by a single
  `RuntimeState` where a specific job's entry matters.
* Background interleavings (the periodic flush, the reader threads) are
  modelled by explicit state passing: each DB read that the code performs
  via `db.refresh` is a parameter of the corresponding function.
-/

namespace Artience

/-- `MAX_LOGS_PER_JOB` from jobs.py. -/
def MAX_LOGS_PER_JOB : Nat := 500

/-- `LOG_FLUSH_INTERVAL` (seconds) from jobs.py. -/
def LOG_FLUSH_INTERVAL : Nat := 2

/-- A log entry as built in `read_stream`: `{ts, stream, text, jobId}`. -/
structure LogEntry where
  ts : Nat
  stream : String
  text : String
  jobId : String
deriving Repr, DecidableEq

/-- An artifact descriptor as built by the artifact collector. -/
structure Artifact where
  name : String
  path : String
  type : String
  size : Nat
  storage : String
  ts : Nat
deriving Repr, DecidableEq

/-- The persisted Job record (`app/models/job.py`), with the JSON text
columns `logs`/`artifacts` decoded to the lists they encode. -/
structure Job where
  id : String
  recipe_id : String
  recipe_name : String
  assigned_agent_id : String
  status : String
  command : String
  args : String
  cwd : Option String
  logs : List LogEntry
  error : Option String
  exit_code : Option Int
  artifacts : List Artifact
  started_at : Option Nat
  completed_at : Option Nat
  created_at : Option Nat
deriving Repr, DecidableEq

/-- A process handle: `poll()` returns `none` while the process is alive
and `some code` once it has exited. -/
structure ProcHandle where
  pollResult : Option Int
deriving Repr, DecidableEq

/-- One entry of the `_active_jobs` runtime map:
`{"log_buffer": [...], "process": ...}`. -/
structure RuntimeState where
  process : Option ProcHandle
  log_buffer : List LogEntry
deriving Repr, DecidableEq

/-- `_serialize_logs`: trim a log list to the `MAX_LOGS_PER_JOB` most
recent entries (`logs[-MAX_LOGS_PER_JOB:]` keeps the last 500). -/
def serialize_logs (logs : List LogEntry) : List LogEntry :=
  if logs.length > MAX_LOGS_PER_JOB then
    logs.drop (logs.length - MAX_LOGS_PER_JOB)
  else logs

/-- `_VERBOSITY_LEVELS = {"debug": 0, "info": 1, "warn": 2, "error": 3}`,
as a lookup returning `none` for keys outside the dict. -/
def VERBOSITY_LEVELS (s : String) : Option Nat :=
  if s = "debug" then some 0
  else if s = "info" then some 1
  else if s = "warn" then some 2
  else if s = "error" then some 3
  else none

/-- Python `sub in s` substring test. -/
def strContains (s sub : String) : Bool :=
  (s.splitOn sub).length > 1

/-- `_should_broadcast_log`: decide whether a log line is broadcast, given
its text, its stream name and the configured verbosity. -/
def should_broadcast_log (log_text stream verbosity : String) : Bool :=
  let min_level := (VERBOSITY_LEVELS verbosity).getD 1
  let log_level :=
    if stream = "stderr" then 3
    else
      let lower := log_text.toLower
      if lower.startsWith "debug" || strContains lower "[debug]" then 0
      else if lower.startsWith "warn" || strContains lower "[warn" then 2
      else if lower.startsWith "error" || strContains lower "[error]" then 3
      else 1
  log_level ≥ min_level

/-- `_count_running_jobs`: `sum(1 for rt in _active_jobs.values() if
rt.get("process") is not None and rt["process"].poll() is None)`. -/
def count_running_jobs (active : List RuntimeState) : Nat :=
  (active.map (fun rt =>
    match rt.process with
    | some p => if p.pollResult = none then 1 else 0
    | none => 0)).sum

/-- The Job record created by `run_job` (status `QUEUED`, `logs="[]"`,
every other nullable column left `NULL`). -/
def run_job_record (job_id recipe_id recipe_name agent_id command args : String)
    (cwd : Option String) (created : Nat) : Job :=
  { id := job_id
    recipe_id := recipe_id
    recipe_name := recipe_name
    assigned_agent_id := agent_id
    status := "QUEUED"
    command := command
    args := args
    cwd := cwd
    logs := []
    error := none
    exit_code := none
    artifacts := []
    started_at := none
    completed_at := none
    created_at := some created }

/-- `stop_job`'s effect on the Job record: unconditionally set
`status := "CANCELED"` and `completed_at := now`; no other column is
written (the subprocess `terminate()` call touches no Job field). -/
def stop_job (job : Job) (now : Nat) : Job :=
  { job with status := "CANCELED", completed_at := some now }

/-- One line processed by `read_stream`: the entry is appended to the
pending buffer first, unconditionally; the verbosity filter only decides
the subsequent `JOB_LOG` broadcast. -/
structure LineEffect where
  log_buffer : List LogEntry
  broadcastLog : Bool
deriving Repr, DecidableEq

/-- The per-line body of `read_stream`: buffer the entry, then apply
`_should_broadcast_log` to decide the live broadcast. -/
def process_line (buffer : List LogEntry) (entry : LogEntry)
    (verbosity : String) : LineEffect :=
  { log_buffer := buffer ++ [entry]
    broadcastLog := should_broadcast_log entry.text entry.stream verbosity }

/-- `_flush_logs`' DB write: the persisted logs become the serialization
of persisted ++ buffer, and the buffer is cleared. -/
def flush_logs (persisted buffer : List LogEntry) :
    List LogEntry × List LogEntry :=
  (serialize_logs (persisted ++ buffer), [])

/-- A whole run's worth of flushes: fold `_flush_logs` over the
successive buffer contents. -/
def flush_many (persisted : List LogEntry) (buffers : List (List LogEntry)) :
    List LogEntry :=
  buffers.foldl (fun acc b => (flush_logs acc b).1) persisted

/-- The merged log view `get_job`/`list_jobs` return for a job that still
has an entry in `_active_jobs`: persisted logs plus the pending buffer. -/
def job_log_view (job : Job) (runtime : Option RuntimeState) : List LogEntry :=
  match runtime with
  | some rt => job.logs ++ rt.log_buffer
  | none => job.logs

-- ── Concurrency wait (`_wait_and_execute`) ────────────

/-- `range(150)`: the wait loop's iteration budget. -/
def SLOT_WAIT_ITERATIONS : Nat := 150

/-- `asyncio.sleep(2)`: the wait loop's polling interval in seconds. -/
def SLOT_WAIT_INTERVAL : Nat := 2

/-- What one iteration of the wait loop observes after its sleep: the
job row as re-read from the DB (`none` when the row is gone) and the
current `_count_running_jobs()` value. -/
structure WaitIterObs where
  jobStatus : Option String
  runningCount : Nat
deriving Repr, DecidableEq

/-- Outcome of `_wait_and_execute`'s polling loop. -/
inductive WaitResult where
  /-- The job row vanished or was CANCELED: pop runtime state, return. -/
  | aborted : WaitResult
  /-- A slot was free: `_execute_job` is invoked (a process may spawn). -/
  | executed : WaitResult
  /-- All iterations exhausted: fall through to the slot-timeout epilogue. -/
  | slotTimeout : WaitResult
deriving Repr, DecidableEq

/-- The polling loop of `_wait_and_execute`, one observation per
iteration; an empty list means the budget is exhausted. -/
def wait_loop (max_concurrent : Nat) : List WaitIterObs → WaitResult
  | [] => .slotTimeout
  | o :: rest =>
    match o.jobStatus with
    | none => .aborted
    | some s =>
      if s = "CANCELED" then .aborted
      else if o.runningCount < max_concurrent then .executed
      else wait_loop max_concurrent rest

/-- `_wait_and_execute`'s loop run on its full budget of
`SLOT_WAIT_ITERATIONS` observations. -/
def wait_and_execute (max_concurrent : Nat) (obs : Nat → WaitIterObs) :
    WaitResult :=
  wait_loop max_concurrent ((List.range SLOT_WAIT_ITERATIONS).map obs)

/-- The slot-timeout epilogue of `_wait_and_execute`: re-read the job and,
only if it is still QUEUED, mark it ERROR with the slot-timeout message
and set `completed_at`. -/
def slot_timeout_update (job : Job) (now : Nat) : Job :=
  if job.status = "QUEUED" then
    { job with
        status := "ERROR"
        error := some "Timed out waiting for available concurrency slot"
        completed_at := some now }
  else job

-- ── Execution finalization (`_execute_job`) ───────────

/-- How the spawn/wait phase of `_execute_job` ended. -/
inductive WaitOutcome where
  /-- `proc.wait()` returned this code within the timeout. -/
  | exited (code : Int) : WaitOutcome
  /-- `asyncio.wait_for` raised `TimeoutError`: the process was killed. -/
  | timedOut : WaitOutcome
deriving Repr, DecidableEq

/-- The whole `try` block around the spawn: either the process ran (with
a wait outcome), or `subprocess.Popen` (or the setup around it) raised. -/
inductive SpawnOutcome where
  | ok (wait : WaitOutcome) : SpawnOutcome
  /-- The exception's rendered text (`repr(e)` plus traceback). -/
  | spawnError (msg : String) : SpawnOutcome
deriving Repr, DecidableEq

/-- `timed_out` as `_execute_job` leaves it after the try block. -/
def timed_out_flag : SpawnOutcome → Bool
  | .ok .timedOut => true
  | _ => false

/-- The local `exit_code` variable after the try/except block.
`statusAfterWait` is the job status as re-read by the `db.refresh` right
after the wait (only reachable when the spawn succeeded): a CANCELED
status there forces `exit_code = -1`; a timeout set it to `-1` already;
the except branch sets it to `-1`. -/
def executed_exit_code (outcome : SpawnOutcome) (statusAfterWait : String) : Int :=
  match outcome with
  | .ok (.exited code) => if statusAfterWait = "CANCELED" then -1 else code
  | .ok .timedOut => -1
  | .spawnError _ => -1

/-- The synthetic log entry buffered by the except branch of
`_execute_job` when spawning raises. -/
def spawn_error_log (jobId msg : String) (ts : Nat) : LogEntry :=
  { ts := ts, stream := "stderr", text := "Error starting process: " ++ msg
    jobId := jobId }

/-- The except branch's effect on the runtime state: append the synthetic
entry to the pending buffer. -/
def buffer_spawn_error (rt : RuntimeState) (entry : LogEntry) : RuntimeState :=
  { rt with log_buffer := rt.log_buffer ++ [entry] }

/-- The final DB update of `_execute_job` (lines 719-733): `job` is the
record as refreshed just before it, `exit_code`/`timed_out` the local
variables. CANCELED is left standing; otherwise a timeout wins over the
exit code; otherwise SUCCESS iff the exit code is 0. `exit_code`,
`artifacts` and `completed_at` are always written. -/
def finalize_job (job : Job) (exit_code : Int) (timed_out : Bool)
    (timeout_seconds : Nat) (arts : List Artifact) (now : Nat) : Job :=
  let is_success := exit_code = 0 ∧ job.status ≠ "CANCELED" ∧ timed_out = false
  let job1 :=
    if job.status ≠ "CANCELED" then
      if timed_out then
        { job with
            status := "ERROR"
            error := some ("Timed out after " ++ toString timeout_seconds ++ "s") }
      else
        { job with status := if is_success then "SUCCESS" else "ERROR" }
    else job
  { job1 with
      exit_code := some exit_code
      artifacts := arts
      completed_at := some now }

/-- `_execute_job` from the end of the wait to the final commit, with the
two `db.refresh` reads explicit: `statusAfterWait` (line 656) feeds the
CANCELED exit-code override, `jobAtFinal` (line 720) feeds the status
decision. -/
def execute_job_final (jobAtFinal : Job) (outcome : SpawnOutcome)
    (statusAfterWait : String) (timeout_seconds : Nat)
    (arts : List Artifact) (now : Nat) : Job :=
  finalize_job jobAtFinal (executed_exit_code outcome statusAfterWait)
    (timed_out_flag outcome) timeout_seconds arts now

-- ── Sample records used by witnesses ──────────────────

/-- A freshly submitted job as `run_job` records it. -/
def sampleQueuedJob : Job :=
  run_job_record "job_1" "r1" "demo" "a01" "echo hi" "[]" none 0

/-- A job that already finished successfully. -/
def sampleSuccessJob : Job :=
  { sampleQueuedJob with
      id := "job_2", status := "SUCCESS", exit_code := some 0
      started_at := some 1, completed_at := some 10 }

/-- A job mid-execution. -/
def sampleRunningJob : Job :=
  { sampleQueuedJob with id := "job_3", status := "RUNNING", started_at := some 1 }

/-- A stdout log line. -/
def sampleEntry : LogEntry :=
  { ts := 3, stream := "stdout", text := "hello", jobId := "job_1" }

/-- A stderr log line. -/
def sampleStderrEntry : LogEntry :=
  { ts := 4, stream := "stderr", text := "boom", jobId := "job_1" }

/-- A job whose persisted logs sit exactly at the cap. -/
def sampleCappedJob : Job :=
  { sampleQueuedJob with logs := List.replicate MAX_LOGS_PER_JOB sampleEntry }

/-- A runtime state with one pending buffered line and a live process. -/
def sampleRuntime : RuntimeState :=
  { process := some { pollResult := none }, log_buffer := [sampleStderrEntry] }

-- ── Helper lemmas ─────────────────────────────────────

theorem serialize_logs_length (l : List LogEntry) :
    (serialize_logs l).length = min l.length MAX_LOGS_PER_JOB := by
  unfold serialize_logs
  split
  · simp only [List.length_drop]
    omega
  · omega

theorem serialize_logs_suffix (l : List LogEntry) :
    (serialize_logs l).IsSuffix l := by
  unfold serialize_logs
  split
  · exact List.drop_suffix _ _
  · exact List.suffix_rfl

theorem flush_many_nil (p : List LogEntry) : flush_many p [] = p := rfl

theorem flush_many_cons (p : List LogEntry) (b : List LogEntry)
    (bs : List (List LogEntry)) :
    flush_many p (b :: bs) = flush_many (serialize_logs (p ++ b)) bs := rfl

theorem flush_many_length_le (bs : List (List LogEntry)) (p : List LogEntry)
    (hp : p.length ≤ MAX_LOGS_PER_JOB) :
    (flush_many p bs).length ≤ MAX_LOGS_PER_JOB := by
  induction bs generalizing p with
  | nil => exact hp
  | cons b bs ih =>
    rw [flush_many_cons]
    exact ih _ (by rw [serialize_logs_length]; exact Nat.min_le_right _ _)

-- ── C3 ────────────────────────────────────────────────

/-- C3: after any sequence of flushes starting from a persisted log list
within the cap, the persisted logs never exceed `MAX_LOGS_PER_JOB = 500`
entries; each flush writes a suffix of persisted ++ buffer (oldest
entries dropped first, newest kept, original order preserved) of length
exactly `min (len) 500`. -/
theorem persisted_logs_capped (p b : List LogEntry) (bs : List (List LogEntry))
    (hp : p.length ≤ MAX_LOGS_PER_JOB) :
    (flush_many p bs).length ≤ MAX_LOGS_PER_JOB ∧
    (flush_logs p b).1.IsSuffix (p ++ b) ∧
    (flush_logs p b).1.length = min (p ++ b).length MAX_LOGS_PER_JOB ∧
    ((p ++ b).length > MAX_LOGS_PER_JOB →
      (flush_logs p b).1 = (p ++ b).drop ((p ++ b).length - MAX_LOGS_PER_JOB)) := by
  refine ⟨flush_many_length_le bs p hp, serialize_logs_suffix _,
    serialize_logs_length _, fun h => ?_⟩
  unfold flush_logs serialize_logs
  simp only [if_pos h]

/-- Witness for C3 at a concrete flush history. -/
theorem persisted_logs_capped_witness :
    (flush_many [] [[sampleEntry], [sampleStderrEntry]]).length ≤ MAX_LOGS_PER_JOB :=
  (persisted_logs_capped [] [sampleEntry] [[sampleEntry], [sampleStderrEntry]]
    (by simp)).1

-- ── C8 ────────────────────────────────────────────────

/-- C8: `_count_running_jobs` counts exactly the runtime entries whose
process handle is non-null and whose `poll()` still returns no exit
status; an entry with a null process handle (a QUEUED job awaiting a
slot) contributes zero. -/
theorem count_running_counts_live (active : List RuntimeState)
    (rt : RuntimeState) :
    count_running_jobs active
      = (active.filter (fun r =>
          r.process.isSome && (r.process.getD { pollResult := some 0 }).pollResult.isNone)).length ∧
    (rt.process = none →
      count_running_jobs (rt :: active) = count_running_jobs active) := by
  constructor
  · induction active with
    | nil => rfl
    | cons r rest ih =>
      simp only [count_running_jobs, List.map_cons, List.sum_cons, List.filter_cons]
      rcases hpr : r.process with _ | p
      · simpa [hpr, count_running_jobs] using ih
      · rcases hpoll : p.pollResult with _ | c
        · simp only [hpr, hpoll, Option.isNone_none, Option.getD_some, Option.isSome_some,
            Bool.and_self, if_pos rfl, if_true, List.length_cons, count_running_jobs] at ih ⊢
          omega
        · simpa [hpr, hpoll, count_running_jobs] using ih
  · intro h
    simp [count_running_jobs, h]

/-- Witness for C8: a null-handle entry ahead of one live and one exited
process leaves the count at 1. -/
theorem count_running_counts_live_witness :
    count_running_jobs
        ({ process := none, log_buffer := [] } ::
          [{ process := some { pollResult := none }, log_buffer := [] },
           { process := some { pollResult := some 0 }, log_buffer := [] }])
      = count_running_jobs
          [{ process := some { pollResult := none }, log_buffer := [] },
           { process := some { pollResult := some 0 }, log_buffer := [] }] :=
  (count_running_counts_live
      [{ process := some { pollResult := none }, log_buffer := [] },
       { process := some { pollResult := some 0 }, log_buffer := [] }]
      { process := none, log_buffer := [] }).2 rfl

-- ── C6 ────────────────────────────────────────────────

/-- C6: verbosity never affects persistence — `read_stream` appends every
line to the pending buffer before and independently of the broadcast
filter — and a stderr line is classified at error level (the maximum of
debug<info<warn<error), so it passes the filter for every verbosity
value. -/
theorem stderr_always_broadcast_buffered (buffer : List LogEntry)
    (entry : LogEntry) (verbosity : String) :
    (process_line buffer entry verbosity).log_buffer = buffer ++ [entry] ∧
    (entry.stream = "stderr" →
      (process_line buffer entry verbosity).broadcastLog = true) := by
  refine ⟨rfl, fun h => ?_⟩
  simp only [process_line, should_broadcast_log, h, if_pos rfl]
  unfold VERBOSITY_LEVELS
  split_ifs <;> simp

/-- Witness for C6 at a concrete stderr line under the strictest
verbosity. -/
theorem stderr_always_broadcast_buffered_witness :
    (process_line [] sampleStderrEntry "error").broadcastLog = true :=
  (stderr_always_broadcast_buffered [] sampleStderrEntry "error").2 rfl

-- ── C10 ───────────────────────────────────────────────

/-- C10: `stop_job` writes only `status` and `completed_at`; every other
persisted field of the Job record is left unchanged. -/
theorem stop_job_frame (job : Job) (now : Nat) :
    (stop_job job now).status = "CANCELED" ∧
    (stop_job job now).completed_at = some now ∧
    (stop_job job now).exit_code = job.exit_code ∧
    (stop_job job now).error = job.error ∧
    (stop_job job now).logs = job.logs ∧
    (stop_job job now).artifacts = job.artifacts ∧
    (stop_job job now).started_at = job.started_at ∧
    (stop_job job now).command = job.command ∧
    (stop_job job now).args = job.args ∧
    (stop_job job now).cwd = job.cwd ∧
    (stop_job job now).recipe_id = job.recipe_id ∧
    (stop_job job now).recipe_name = job.recipe_name ∧
    (stop_job job now).assigned_agent_id = job.assigned_agent_id ∧
    (stop_job job now).created_at = job.created_at ∧
    (stop_job job now).id = job.id := by
  exact ⟨rfl, rfl, rfl, rfl, rfl, rfl, rfl, rfl, rfl, rfl, rfl, rfl, rfl, rfl, rfl⟩

-- ── C9 ────────────────────────────────────────────────

/-- C9: for a job with an active runtime entry, `get_job`/`list_jobs`
return the persisted logs with the pending buffer appended in order, so
the returned view can exceed the 500-entry cap that applies only to the
persisted list. -/
theorem active_log_view_merges (job : Job) (rt : RuntimeState) :
    job_log_view job (some rt) = job.logs ++ rt.log_buffer ∧
    (job.logs.length = MAX_LOGS_PER_JOB → rt.log_buffer ≠ [] →
      (job_log_view job (some rt)).length > MAX_LOGS_PER_JOB) := by
  refine ⟨rfl, fun hcap hne => ?_⟩
  have hb : 0 < rt.log_buffer.length := List.length_pos.mpr hne
  simp only [job_log_view, List.length_append, hcap]
  omega

/-- Witness for C9: a job at the 500-entry persisted cap with one
buffered line yields a 501-entry view. -/
theorem active_log_view_merges_witness :
    (job_log_view sampleCappedJob (some sampleRuntime)).length > MAX_LOGS_PER_JOB :=
  (active_log_view_merges sampleCappedJob sampleRuntime).2
    (by simp [sampleCappedJob, sampleQueuedJob, run_job_record])
    (by simp [sampleRuntime])

-- ── C1 ────────────────────────────────────────────────

/-- A job already marked CANCELED (as `_execute_job` would re-read it
after a stop during execution). -/
def sampleCanceledJob : Job :=
  { sampleRunningJob with id := "job_4", status := "CANCELED", completed_at := some 7 }

/-- C1 counterexample: a job canceled while QUEUED (stop before any
process existed) has `status = CANCELED` yet `exit_code = NULL`, not -1:
`stop_job` never writes `exit_code`, and `_wait_and_execute` returns
without a write when it observes the cancellation. -/
theorem canceled_queued_exit_code_counterexample :
    (stop_job sampleQueuedJob 5).status = "CANCELED" ∧
    (stop_job sampleQueuedJob 5).exit_code ≠ some (-1) := by
  refine ⟨rfl, ?_⟩
  simp [stop_job, sampleQueuedJob, run_job_record]

/-- C1 amended: the `exit_code = -1` invariant for CANCELED jobs holds
exactly for executions finalized by `_execute_job` that observe the
cancellation at the post-wait re-read: there the override forces
`exit_code = -1` whatever the process returned, and the CANCELED status
stands. `stop_job` itself leaves `exit_code` unchanged, so jobs canceled
while QUEUED-awaiting-slot (or after termination) keep their prior
exit_code. -/
theorem canceled_exit_code_amended (job : Job) (outcome : SpawnOutcome)
    (N now : Nat) (arts : List Artifact) (j2 : Job) (t : Nat)
    (h : job.status = "CANCELED") :
    (execute_job_final job outcome "CANCELED" N arts now).exit_code = some (-1) ∧
    (execute_job_final job outcome "CANCELED" N arts now).status = "CANCELED" ∧
    (stop_job j2 t).exit_code = j2.exit_code := by
  refine ⟨?_, ?_, rfl⟩
  · rcases outcome with w | m
    · rcases w with c | _ <;>
        simp [execute_job_final, finalize_job, executed_exit_code, h]
    · simp [execute_job_final, finalize_job, executed_exit_code, h]
  · simp [execute_job_final, finalize_job, h]

/-- Witness for the amended C1: a process that exited 0 under a CANCELED
status is still persisted with exit_code -1. -/
theorem canceled_exit_code_amended_witness :
    (execute_job_final sampleCanceledJob (SpawnOutcome.ok (WaitOutcome.exited 0))
        "CANCELED" 300 [] 9).exit_code = some (-1) :=
  (canceled_exit_code_amended sampleCanceledJob (SpawnOutcome.ok (WaitOutcome.exited 0))
      300 9 [] sampleQueuedJob 5 rfl).1

-- ── C5 ────────────────────────────────────────────────

/-- C5 counterexample: calling stop on an already-terminal (SUCCESS) job
is not a no-op returning the same record: the record comes back with its
status rewritten to CANCELED and a fresh completed_at. -/
theorem stop_terminal_not_noop_counterexample :
    stop_job sampleSuccessJob 20 ≠ sampleSuccessJob ∧
    (stop_job sampleSuccessJob 20).status = "CANCELED" := by
  refine ⟨fun h => ?_, rfl⟩
  have hs := congrArg Job.status h
  simp [stop_job, sampleSuccessJob, sampleQueuedJob, run_job_record] at hs

/-- C5 amended: stop is absorptive, not idempotent: every call
unconditionally rewrites `status := CANCELED` and `completed_at := now`
(and publishes its own terminal broadcast in the source), so two stops
both yield CANCELED, a second stop equals a single stop at the second
timestamp, and a stop returns the record unchanged only when the job was
already CANCELED with that very completed_at. -/
theorem stop_job_absorptive (job : Job) (t1 t2 : Nat) :
    (stop_job job t1).status = "CANCELED" ∧
    (stop_job (stop_job job t1) t2).status = "CANCELED" ∧
    stop_job (stop_job job t1) t2 = stop_job job t2 ∧
    (stop_job job t1 = job ↔
      (job.status = "CANCELED" ∧ job.completed_at = some t1)) := by
  refine ⟨rfl, rfl, rfl, ?_⟩
  constructor
  · intro h
    exact ⟨(congrArg Job.status h).symm ▸ rfl, (congrArg Job.completed_at h).symm ▸ rfl⟩
  · rintro ⟨h1, h2⟩
    cases job
    simp_all [stop_job]

-- ── C2 ────────────────────────────────────────────────

/-- C2: the final-status precedence of `_execute_job`: a CANCELED status
stands, overriding exit code and timeout; otherwise a fired timeout
yields ERROR with message "Timed out after {N}s" and exit_code -1;
otherwise SUCCESS iff the process exit code is 0, else ERROR. -/
theorem final_status_precedence (job : Job) (outcome : SpawnOutcome)
    (N now : Nat) (arts : List Artifact) :
    (job.status = "CANCELED" →
      (execute_job_final job outcome job.status N arts now).status = "CANCELED") ∧
    (job.status ≠ "CANCELED" → outcome = SpawnOutcome.ok WaitOutcome.timedOut →
      (execute_job_final job outcome job.status N arts now).status = "ERROR" ∧
      (execute_job_final job outcome job.status N arts now).error
        = some ("Timed out after " ++ toString N ++ "s") ∧
      (execute_job_final job outcome job.status N arts now).exit_code = some (-1)) ∧
    (∀ code : Int, job.status ≠ "CANCELED" →
      outcome = SpawnOutcome.ok (WaitOutcome.exited code) →
      ((execute_job_final job outcome job.status N arts now).status = "SUCCESS"
        ↔ code = 0) ∧
      (code ≠ 0 →
        (execute_job_final job outcome job.status N arts now).status = "ERROR") ∧
      (execute_job_final job outcome job.status N arts now).exit_code = some code) := by
  refine ⟨fun h => ?_, fun h ho => ?_, fun code h ho => ?_⟩
  · simp [execute_job_final, finalize_job, h]
  · subst ho
    simp [execute_job_final, finalize_job, executed_exit_code, timed_out_flag, h]
  · subst ho
    refine ⟨?_, fun hc => ?_, ?_⟩
    · by_cases hc : code = 0 <;>
        simp [execute_job_final, finalize_job, executed_exit_code, timed_out_flag, h, hc]
    · simp [execute_job_final, finalize_job, executed_exit_code, timed_out_flag, h, hc]
    · simp [execute_job_final, finalize_job, executed_exit_code, timed_out_flag, h]

/-- Witness for C2: a running job whose wait timed out is finalized as
ERROR with the timeout message and exit_code -1. -/
theorem final_status_precedence_witness :
    (execute_job_final sampleRunningJob (SpawnOutcome.ok WaitOutcome.timedOut)
        sampleRunningJob.status 300 [] 50).status = "ERROR" ∧
    (execute_job_final sampleRunningJob (SpawnOutcome.ok WaitOutcome.timedOut)
        sampleRunningJob.status 300 [] 50).error
      = some ("Timed out after " ++ toString 300 ++ "s") ∧
    (execute_job_final sampleRunningJob (SpawnOutcome.ok WaitOutcome.timedOut)
        sampleRunningJob.status 300 [] 50).exit_code = some (-1) :=
  (final_status_precedence sampleRunningJob (SpawnOutcome.ok WaitOutcome.timedOut)
      300 50 []).2.1 (by decide) rfl

-- ── C4 ────────────────────────────────────────────────

theorem wait_loop_all_busy (max_concurrent : Nat) (l : List WaitIterObs)
    (h : ∀ o ∈ l, o.jobStatus ≠ none ∧ o.jobStatus ≠ some "CANCELED" ∧
        max_concurrent ≤ o.runningCount) :
    wait_loop max_concurrent l = WaitResult.slotTimeout := by
  induction l with
  | nil => rfl
  | cons o rest ih =>
    obtain ⟨h1, h2, h3⟩ := h o (List.mem_cons_self o rest)
    rcases ho : o.jobStatus with _ | s
    · exact absurd ho h1
    · have hs : ¬ s = "CANCELED" := fun hs => h2 (by rw [ho, hs])
      have hc : ¬ o.runningCount < max_concurrent := by omega
      simp only [wait_loop, ho, if_neg hs, if_neg hc]
      exact ih fun o2 ho2 => h o2 (List.mem_cons_of_mem _ ho2)

/-- C4: the waiter polls the running count every `SLOT_WAIT_INTERVAL = 2`
seconds for at most `SLOT_WAIT_ITERATIONS = 150` iterations; if every
iteration sees the job alive, not canceled, and no free slot, the loop
ends in `slotTimeout` — never in `executed`, so no OS process is ever
spawned — and the epilogue moves the still-QUEUED job straight to ERROR
with the slot-timeout message and a completed_at timestamp. -/
theorem slot_wait_timeout (max_concurrent : Nat) (obs : Nat → WaitIterObs)
    (job : Job) (now : Nat)
    (hobs : ∀ i < SLOT_WAIT_ITERATIONS, (obs i).jobStatus ≠ none ∧
      (obs i).jobStatus ≠ some "CANCELED" ∧ max_concurrent ≤ (obs i).runningCount)
    (hjob : job.status = "QUEUED") :
    SLOT_WAIT_ITERATIONS = 150 ∧ SLOT_WAIT_INTERVAL = 2 ∧
    wait_and_execute max_concurrent obs = WaitResult.slotTimeout ∧
    (slot_timeout_update job now).status = "ERROR" ∧
    (slot_timeout_update job now).error
      = some "Timed out waiting for available concurrency slot" ∧
    (slot_timeout_update job now).completed_at = some now := by
  refine ⟨rfl, rfl, ?_, ?_, ?_, ?_⟩
  · apply wait_loop_all_busy
    intro o ho
    rw [List.mem_map] at ho
    obtain ⟨i, hi, rfl⟩ := ho
    exact hobs i (List.mem_range.mp hi)
  · simp [slot_timeout_update, hjob]
  · simp [slot_timeout_update, hjob]
  · simp [slot_timeout_update, hjob]

/-- Witness for C4: five running jobs against a ceiling of five for the
whole budget time out the queued sixth job. -/
theorem slot_wait_timeout_witness :
    wait_and_execute 5 (fun _ => { jobStatus := some "QUEUED", runningCount := 5 })
      = WaitResult.slotTimeout ∧
    (slot_timeout_update sampleQueuedJob 301).status = "ERROR" ∧
    (slot_timeout_update sampleQueuedJob 301).error
      = some "Timed out waiting for available concurrency slot" :=
  have h := slot_wait_timeout 5
    (fun _ => { jobStatus := some "QUEUED", runningCount := 5 })
    sampleQueuedJob 301
    (by intro i hi; exact ⟨by simp, by simp, Nat.le_refl 5⟩) rfl
  ⟨h.2.2.1, h.2.2.2.1, h.2.2.2.2.1⟩

-- ── C7 ────────────────────────────────────────────────

/-- C7: a spawn failure is recovered locally: `execute_job_final` is a
total function (nothing re-raises toward `run()`, which already
returned), the except branch buffers a synthetic stderr log entry
describing the error, and a non-canceled job is finalized as ERROR with
exit_code -1. -/
theorem spawn_failure_recovered (job : Job) (msg jid : String)
    (ts N now : Nat) (arts : List Artifact) (rt : RuntimeState)
    (h : job.status ≠ "CANCELED") :
    (execute_job_final job (SpawnOutcome.spawnError msg) job.status N arts now).status
      = "ERROR" ∧
    (execute_job_final job (SpawnOutcome.spawnError msg) job.status N arts now).exit_code
      = some (-1) ∧
    (buffer_spawn_error rt (spawn_error_log jid msg ts)).log_buffer
      = rt.log_buffer ++ [spawn_error_log jid msg ts] ∧
    (spawn_error_log jid msg ts).stream = "stderr" := by
  refine ⟨?_, ?_, rfl, rfl⟩
  · simp [execute_job_final, finalize_job, executed_exit_code, timed_out_flag, h]
  · simp [execute_job_final, finalize_job, executed_exit_code, timed_out_flag, h]

/-- Witness for C7: a concrete spawn failure on a running job. -/
theorem spawn_failure_recovered_witness :
    (execute_job_final sampleRunningJob
        (SpawnOutcome.spawnError "FileNotFoundError") sampleRunningJob.status
        300 [] 12).status = "ERROR" ∧
    (execute_job_final sampleRunningJob
        (SpawnOutcome.spawnError "FileNotFoundError") sampleRunningJob.status
        300 [] 12).exit_code = some (-1) :=
  have h := spawn_failure_recovered sampleRunningJob "FileNotFoundError" "job_3"
    11 300 12 [] sampleRuntime (by decide)
  ⟨h.1, h.2.1⟩

end Artience
